import Mathlib

/-!
Verification of the dally bookkeeping engine: the Nigeria 2026 tax
calculator (`bookkeeping/services/tax/nigeria_2026.py` together with
`bookkeeping/services/tax/config.py`) and the summary calculators
(`bookkeeping/services/summaries.py`).

Money is held in kobo (minor units; 1 naira = 100 kobo).  The Python code
computes with `decimal.Decimal`; for integer-kobo inputs every
intermediate value of the functions modelled here is an exact decimal
with at most four fractional digits when expressed in naira, so the
arithmetic is modelled exactly over `Nat`/`Int`, scaled to hundredths of
a kobo where fractions occur.
-/

namespace Dally

/-- `PERSONAL_INCOME_TAX_BANDS_2026` from `config.py`: cumulative upper
limits on chargeable income, converted from naira to kobo, paired with
the marginal rate in percent.  `none` models the `Decimal("Infinity")`
sentinel of the last band. -/
def PERSONAL_INCOME_TAX_BANDS_2026 : List (Option ℕ × ℕ) :=
  [(some 220000000, 15), (some 1120000000, 18), (some 2420000000, 21),
   (some 4920000000, 23), (none, 25)]

/-- The band walk of `calculate_personal_income_tax` (nigeria_2026.py
lines 58–76): one recursive step per loop iteration, `prev` playing
`previous_limit`; returning `0` models `break`.  After the unbounded
band, `previous_limit` becomes infinite in the source and every later
iteration would break at once, so the recursion stops there.  The
`if taxable_in_band > 0` guard of the source is subsumed: with the guard
`prev < chargeable` the band portion is positive whenever the band is
nonempty, and an empty band contributes `0` either way.  The accumulator
is in units of one hundredth of a kobo (kobo times a percent rate). -/
def bandTax (chargeable : ℕ) : List (Option ℕ × ℕ) → ℕ → ℕ
  | [], _ => 0
  | (some u, r) :: rest, prev =>
    if chargeable ≤ prev then 0
    else min (chargeable - prev) (u - prev) * r + bandTax chargeable rest u
  | (none, r) :: _, prev =>
    if chargeable ≤ prev then 0
    else (chargeable - prev) * r

/-- `calculate_personal_income_tax` (nigeria_2026.py lines 30–82), input
and output in kobo.  For an integer count of kobo the `Decimal`
conversion to naira at two decimal places is exact, so the chargeable
income `max(0, gross - 800000 naira)` measured in kobo is the truncated
subtraction `toNat k - 80000000`; the final
`quantize(Decimal("1"), ROUND_HALF_UP)` applied to `tax_payable * 100`
is `(S + 50) / 100` on the hundredth-of-kobo accumulator `S`. -/
def calculate_personal_income_tax (taxable_income_kobo : ℤ) : ℤ :=
  if taxable_income_kobo ≤ 0 then 0
  else
    let chargeable : ℕ := taxable_income_kobo.toNat - 80000000
    if chargeable = 0 then 0
    else ((bandTax chargeable PERSONAL_INCOME_TAX_BANDS_2026 0 + 50) / 100 : ℕ)

/-- `calculate_vat` (nigeria_2026.py lines 87–94).  `VAT_RATE` is
`Decimal("0.075") = 75/1000`, so `Decimal(revenue) * VAT_RATE` is exact
with three fractional digits and `quantize(Decimal("1"), ROUND_HALF_UP)`
is `(75 * x + 500) / 1000`. -/
def calculate_vat (vat_enabled : Bool) (revenue_kobo : ℤ) : ℤ :=
  if vat_enabled = false ∨ revenue_kobo ≤ 0 then 0
  else ((75 * revenue_kobo.toNat + 500) / 1000 : ℕ)

/-- Round `num / den` to the nearest integer with ties going to the even
neighbour — the rounding used by `Decimal.quantize` when no rounding
argument is passed (the context default `ROUND_HALF_EVEN`), as in the
`effective_tax_rate` quantize call of `calculate_tax_summary`. -/
def roundHalfEven (num den : ℕ) : ℕ :=
  if 2 * (num % den) < den then num / den
  else if den < 2 * (num % den) then num / den + 1
  else if num / den % 2 = 0 then num / den else num / den + 1

/-- `TAX_YEAR` from `config.py`. -/
def TAX_YEAR : ℕ := 2026

/-- The dictionary returned by `calculate_tax_summary`, without the three
constant string fields (`calculation_method`, `disclaimer` and the
currency are fixed configuration text).  `effective_tax_rate4` is the
quantized `effective_tax_rate` scaled by `10^4`: the integer produced by
`quantize(Decimal("0.0001"))` read in units of `1/10000`. -/
structure TaxSummary where
  total_revenue : ℤ
  total_expenses : ℤ
  net_profit : ℤ
  taxable_income : ℤ
  estimated_income_tax : ℤ
  effective_tax_rate4 : ℤ
  vat_payable : ℤ
  tax_year : ℕ
deriving Repr, DecidableEq

/-- `calculate_tax_summary` (nigeria_2026.py lines 99–135).
`business_id` is accepted and never read, exactly as in the source.  The
division `Decimal(pit) / net_profit` is exact at the context's 28
significant digits for every magnitude arising here, and the
`quantize(Decimal("0.0001"))` that follows rounds half-to-even, so the
stored rate in `1/10000` units is `roundHalfEven (10000 * pit) net`. -/
def calculate_tax_summary (vat_enabled : Bool)
    (total_revenue_kobo total_expenses_kobo : ℤ) (business_id : ℕ) : TaxSummary :=
  let revenue := total_revenue_kobo
  let expenses := total_expenses_kobo
  let net_profit : ℤ := max 0 (revenue - expenses)
  let pit := calculate_personal_income_tax net_profit
  { total_revenue := revenue
    total_expenses := expenses
    net_profit := net_profit
    taxable_income := net_profit
    estimated_income_tax := pit
    effective_tax_rate4 :=
      if 0 < net_profit then (roundHalfEven (10000 * pit.toNat) net_profit.toNat : ℤ)
      else 0
    vat_payable := calculate_vat vat_enabled revenue
    tax_year := TAX_YEAR }

/-! ### Spec-side renderings of the tax arithmetic, over exact rationals -/

/-- Round a rational half-up to the nearest integer. -/
def roundHalfUpQ (q : ℚ) : ℤ := ⌊q + 1 / 2⌋

/-- The claim's description of the PIT computation, followed word for
word over exact rationals: convert kobo to naira, subtract the 800,000
naira exemption (a result that is not positive yields tax 0 via the
`max`), tax the portion of chargeable income falling within each band at
that band's marginal rate, and convert the accumulated tax back to kobo
rounding half-up. -/
def pit_claim (k : ℤ) : ℤ :=
  if k ≤ 0 then 0
  else
    let c : ℚ := max 0 ((k : ℚ) / 100 - 800000)
    let tax : ℚ :=
      15 / 100 * min c 2200000 +
      18 / 100 * (min c 11200000 - min c 2200000) +
      21 / 100 * (min c 24200000 - min c 11200000) +
      23 / 100 * (min c 49200000 - min c 24200000) +
      25 / 100 * (c - min c 49200000)
    roundHalfUpQ (tax * 100)

/-- Closed form of the band walk on chargeable income in kobo. -/
def bandTaxClosed (c : ℕ) : ℕ :=
  15 * min c 220000000 + 18 * (min c 1120000000 - min c 220000000) +
  21 * (min c 2420000000 - min c 1120000000) +
  23 * (min c 4920000000 - min c 2420000000) +
  25 * (c - min c 4920000000)

theorem bandTax_eq_closed (c : ℕ) :
    bandTax c PERSONAL_INCOME_TAX_BANDS_2026 0 = bandTaxClosed c := by
  simp only [PERSONAL_INCOME_TAX_BANDS_2026, bandTax, bandTaxClosed]
  split_ifs <;> omega

/-- Floor of a quotient of natural-number casts is natural division. -/
theorem intFloor_natCast_div (a b : ℕ) : ⌊(a : ℚ) / (b : ℚ)⌋ = (a / b : ℕ) := by
  rw [← Int.natCast_floor_eq_floor (by positivity), Nat.floor_div_eq_div]

/-- Rounding `a / (2c)` half-up is natural division after adding `c`. -/
theorem roundHalfUpQ_natCast_div (a c : ℕ) (hc : 0 < c) :
    roundHalfUpQ ((a : ℚ) / (2 * c : ℕ)) = ((a + c) / (2 * c) : ℕ) := by
  have h2c : ((2 * c : ℕ) : ℚ) ≠ 0 := by positivity
  have : (a : ℚ) / (2 * c : ℕ) + 1 / 2 = ((a + c : ℕ) : ℚ) / ((2 * c : ℕ) : ℚ) := by
    field_simp
    ring
  rw [roundHalfUpQ, this, intFloor_natCast_div]

theorem bandTaxClosed_cast (c : ℕ) :
    ((bandTaxClosed c : ℕ) : ℚ) =
      15 * ((min c 220000000 : ℕ) : ℚ) +
      18 * (((min c 1120000000 : ℕ) : ℚ) - ((min c 220000000 : ℕ) : ℚ)) +
      21 * (((min c 2420000000 : ℕ) : ℚ) - ((min c 1120000000 : ℕ) : ℚ)) +
      23 * (((min c 4920000000 : ℕ) : ℚ) - ((min c 2420000000 : ℕ) : ℚ)) +
      25 * ((c : ℚ) - ((min c 4920000000 : ℕ) : ℚ)) := by
  have h12 : min c 220000000 ≤ min c 1120000000 :=
    min_le_min (le_refl c) (by norm_num)
  have h23 : min c 1120000000 ≤ min c 2420000000 :=
    min_le_min (le_refl c) (by norm_num)
  have h34 : min c 2420000000 ≤ min c 4920000000 :=
    min_le_min (le_refl c) (by norm_num)
  have h4c : min c 4920000000 ≤ c := min_le_left _ _
  simp only [bandTaxClosed]
  push_cast [h12, h23, h34, h4c]
  ring

/-- The rational tax formula of the claim, evaluated at a chargeable
income of `c / 100` naira (`c` in kobo), times `100`, is the
hundredth-of-kobo accumulator divided by `100`. -/
theorem claim_tax_eq (c : ℕ) :
    (15 / 100 * min ((c : ℚ) / 100) 2200000 +
     18 / 100 * (min ((c : ℚ) / 100) 11200000 - min ((c : ℚ) / 100) 2200000) +
     21 / 100 * (min ((c : ℚ) / 100) 24200000 - min ((c : ℚ) / 100) 11200000) +
     23 / 100 * (min ((c : ℚ) / 100) 49200000 - min ((c : ℚ) / 100) 24200000) +
     25 / 100 * ((c : ℚ) / 100 - min ((c : ℚ) / 100) 49200000)) * 100
    = (bandTaxClosed c : ℚ) / 100 := by
  have hmin : ∀ L : ℕ, min ((c : ℚ) / 100) ((L : ℚ) / 100) = ((min c L : ℕ) : ℚ) / 100 := by
    intro L
    rw [min_div_div_right (by norm_num : (0 : ℚ) ≤ 100), Nat.cast_min]
  have e1 : (2200000 : ℚ) = ((220000000 : ℕ) : ℚ) / 100 := by norm_num
  have e2 : (11200000 : ℚ) = ((1120000000 : ℕ) : ℚ) / 100 := by norm_num
  have e3 : (24200000 : ℚ) = ((2420000000 : ℕ) : ℚ) / 100 := by norm_num
  have e4 : (49200000 : ℚ) = ((4920000000 : ℕ) : ℚ) / 100 := by norm_num
  rw [e1, e2, e3, e4, hmin, hmin, hmin, hmin, bandTaxClosed_cast]
  ring

theorem roundHalfUpQ_div100 (a : ℕ) :
    roundHalfUpQ ((a : ℚ) / 100) = ((a + 50) / 100 : ℕ) := by
  have h := roundHalfUpQ_natCast_div a 50 (by norm_num)
  norm_num at h
  exact_mod_cast h

theorem roundHalfUpQ_zero : roundHalfUpQ 0 = 0 := by
  rw [roundHalfUpQ, zero_add, Int.floor_eq_zero_iff, Set.mem_Ico]
  norm_num

theorem bandTaxClosed_zero : bandTaxClosed 0 = 0 := by
  simp only [bandTaxClosed]
  omega

theorem pit_eq_claim (k : ℤ) : calculate_personal_income_tax k = pit_claim k := by
  by_cases hk : k ≤ 0
  · simp [calculate_personal_income_tax, pit_claim, hk]
  · have hk0 : 0 < k := not_le.mp hk
    obtain ⟨n, rfl⟩ : ∃ n : ℕ, k = (n : ℤ) := ⟨k.toNat, (Int.toNat_of_nonneg hk0.le).symm⟩
    have hcQ : max 0 ((n : ℚ) / 100 - 800000) = ((n - 80000000 : ℕ) : ℚ) / 100 := by
      rcases le_or_lt n 80000000 with hle | hlt
      · have h0 : (n - 80000000 : ℕ) = 0 := Nat.sub_eq_zero_of_le hle
        rw [h0]
        have hn100 : (n : ℚ) ≤ 80000000 := by exact_mod_cast hle
        have : (n : ℚ) / 100 - 800000 ≤ 0 := by linarith
        simp [max_eq_left this]
      · have hsub : ((n - 80000000 : ℕ) : ℚ) = (n : ℚ) - 80000000 := by
          push_cast [hlt.le]
          ring
        have hval : (n : ℚ) / 100 - 800000 = ((n - 80000000 : ℕ) : ℚ) / 100 := by
          rw [hsub]
          ring
        rw [hval]
        refine max_eq_right ?_
        rw [hsub]
        have : (80000000 : ℚ) ≤ (n : ℚ) := by exact_mod_cast hlt.le
        apply div_nonneg _ (by norm_num : (0 : ℚ) ≤ 100)
        linarith
    simp only [calculate_personal_income_tax, pit_claim, if_neg hk, Int.toNat_natCast,
      Int.cast_natCast, hcQ]
    by_cases hc0 : n - 80000000 = 0
    · rw [if_pos hc0, hc0, claim_tax_eq, bandTaxClosed_zero]
      have h0 : ((0 : ℕ) : ℚ) / 100 = 0 := by norm_num
      rw [h0, roundHalfUpQ_zero]
    · rw [if_neg hc0, bandTax_eq_closed, claim_tax_eq, roundHalfUpQ_div100]

theorem bandTaxClosed_mono {c1 c2 : ℕ} (h : c1 ≤ c2) :
    bandTaxClosed c1 ≤ bandTaxClosed c2 := by
  simp only [bandTaxClosed]
  omega

/-- Evaluation of the PIT function on a natural-number kobo input. -/
theorem pit_eval (n : ℕ) :
    calculate_personal_income_tax (n : ℤ) =
      if n - 80000000 = 0 then 0
      else (((bandTaxClosed (n - 80000000) + 50) / 100 : ℕ) : ℤ) := by
  rcases Nat.eq_zero_or_pos n with rfl | hn
  · simp [calculate_personal_income_tax]
  · have hk : ¬((n : ℤ) ≤ 0) := by exact_mod_cast Nat.not_le.mpr hn
    simp only [calculate_personal_income_tax, if_neg hk, Int.toNat_natCast,
      bandTax_eq_closed]

theorem pit_nonneg (k : ℤ) : 0 ≤ calculate_personal_income_tax k := by
  simp only [calculate_personal_income_tax]
  split_ifs
  · exact le_refl 0
  · exact le_refl 0
  · exact Int.natCast_nonneg _

/-! ### Claim theorems for the tax calculator -/

/-- C1: `calculate_personal_income_tax` returns 0 for non-positive kobo
input; otherwise it converts to naira, subtracts the 800,000-naira
exemption (non-positive chargeable income gives 0), taxes the portion of
chargeable income in each cumulative band (2.2m @15%, 11.2m @18%,
24.2m @21%, 49.2m @23%, unbounded @25%) at the band's marginal rate and
returns the accumulated tax in kobo rounded half-up — all captured by the
spec-level `pit_claim`; in particular a taxable income of 4,000,000 naira
(400,000,000 kobo) yields exactly 510,000 naira (51,000,000 kobo). -/
theorem C1_personal_income_tax :
    (∀ k : ℤ, calculate_personal_income_tax k = pit_claim k) ∧
    calculate_personal_income_tax 400000000 = 51000000 :=
  ⟨pit_eq_claim, by decide⟩

/-- C9: the PIT function is non-decreasing in its kobo input. -/
theorem C9_pit_monotone (x y : ℤ) (hxy : x ≤ y) :
    calculate_personal_income_tax x ≤ calculate_personal_income_tax y := by
  by_cases hx : x ≤ 0
  · rw [calculate_personal_income_tax, if_pos hx]
    exact pit_nonneg y
  · have hy : ¬y ≤ 0 := fun h => hx (hxy.trans h)
    obtain ⟨a, rfl⟩ : ∃ a : ℕ, x = (a : ℤ) :=
      ⟨x.toNat, (Int.toNat_of_nonneg (not_le.mp hx).le).symm⟩
    obtain ⟨b, rfl⟩ : ∃ b : ℕ, y = (b : ℤ) :=
      ⟨y.toNat, (Int.toNat_of_nonneg (not_le.mp hy).le).symm⟩
    have hab : a ≤ b := by exact_mod_cast hxy
    rw [pit_eval, pit_eval]
    have hcc : a - 80000000 ≤ b - 80000000 := Nat.sub_le_sub_right hab _
    by_cases ha0 : a - 80000000 = 0
    · rw [if_pos ha0]
      split_ifs
      · exact le_refl 0
      · exact Int.natCast_nonneg _
    · have hb0 : ¬(b - 80000000 = 0) := by omega
      rw [if_neg ha0, if_neg hb0]
      have hmono := bandTaxClosed_mono hcc
      have hdiv : (bandTaxClosed (a - 80000000) + 50) / 100 ≤
          (bandTaxClosed (b - 80000000) + 50) / 100 :=
        Nat.div_le_div_right (by omega)
      exact_mod_cast hdiv

theorem C9_pit_monotone_witness :
    (0 : ℤ) ≤ 400000000 ∧
    calculate_personal_income_tax 0 ≤ calculate_personal_income_tax 400000000 :=
  ⟨by decide, C9_pit_monotone 0 400000000 (by decide)⟩

/-- C7: `calculate_vat` returns 0 when VAT is disabled or revenue is not
positive, and otherwise returns revenue times 0.075 rounded half-up to
the nearest kobo; and `calculate_tax_summary` applies it to gross
revenue, not profit. -/
theorem C7_vat :
    (∀ (enabled : Bool) (x : ℤ),
      calculate_vat enabled x =
        if enabled = false ∨ x ≤ 0 then 0
        else roundHalfUpQ ((x : ℚ) * (75 / 1000))) ∧
    (∀ (v : Bool) (r e : ℤ) (b : ℕ),
      (calculate_tax_summary v r e b).vat_payable = calculate_vat v r) := by
  constructor
  · intro enabled x
    by_cases h : enabled = false ∨ x ≤ 0
    · rw [calculate_vat, if_pos h, if_pos h]
    · push_neg at h
      obtain ⟨he, hx⟩ := h
      have hx0 : ¬x ≤ 0 := not_le.mpr hx
      obtain ⟨a, rfl⟩ : ∃ a : ℕ, x = (a : ℤ) :=
        ⟨x.toNat, (Int.toNat_of_nonneg hx.le).symm⟩
      rw [calculate_vat, if_neg (by tauto), if_neg (by tauto)]
      have hcast : ((a : ℤ) : ℚ) * (75 / 1000) =
          ((75 * a : ℕ) : ℚ) / ((2 * 500 : ℕ) : ℚ) := by
        push_cast
        ring
      rw [hcast, roundHalfUpQ_natCast_div _ 500 (by norm_num), Int.toNat_natCast]
  · intro v r e b
    rfl

/-- C10: `calculate_tax_summary` never reads its `business_id` argument:
its output is identical for any two business identifiers. -/
theorem C10_tax_summary_ignores_business_id :
    ∀ (v : Bool) (r e : ℤ) (b1 b2 : ℕ),
      calculate_tax_summary v r e b1 = calculate_tax_summary v r e b2 :=
  fun _ _ _ _ _ => rfl

/-- C4 counterexample: with revenue 128,000,000 kobo (1,280,000 naira)
and zero expenses, net profit is 128,000,000 kobo, PIT is 7,200,000 kobo,
and the exact ratio is 0.05625.  Rounding half-up to four decimal places
gives 0.0563, but the code's `quantize(Decimal("0.0001"))` rounds
half-to-even and stores 0.0562 — so the quotient is not rounded half-up. -/
theorem C4_counterexample :
    (calculate_tax_summary false 128000000 0 1).estimated_income_tax = 7200000 ∧
    (calculate_tax_summary false 128000000 0 1).net_profit = 128000000 ∧
    (calculate_tax_summary false 128000000 0 1).effective_tax_rate4 = 562 ∧
    roundHalfUpQ ((10000 : ℚ) * 7200000 / 128000000) = 563 := by
  refine ⟨by decide, by decide, by decide, ?_⟩
  have h : (10000 : ℚ) * 7200000 / 128000000 + 1 / 2 = ((563 : ℤ) : ℚ) := by
    norm_num
  rw [roundHalfUpQ, h, Int.floor_intCast]

/-- C4 amended: `effective_tax_rate` equals `estimated_income_tax /
net_profit` rounded to 4 decimal places with round-half-to-even (the
`Decimal.quantize` default), not round-half-up, when `net_profit > 0`,
and equals 0 whenever `net_profit = 0` regardless of gross revenue. -/
theorem C4_effective_rate (v : Bool) (r e : ℤ) (b : ℕ) :
    ((calculate_tax_summary v r e b).net_profit = 0 →
      (calculate_tax_summary v r e b).effective_tax_rate4 = 0) ∧
    (0 < (calculate_tax_summary v r e b).net_profit →
      (calculate_tax_summary v r e b).effective_tax_rate4 =
        (roundHalfEven (10000 * (calculate_tax_summary v r e b).estimated_income_tax.toNat)
          (calculate_tax_summary v r e b).net_profit.toNat : ℤ)) := by
  constructor
  · intro h
    simp only [calculate_tax_summary] at h ⊢
    rw [h]
    simp
  · intro h
    simp only [calculate_tax_summary] at h ⊢
    rw [if_pos h]

theorem C4_effective_rate_witness :
    (calculate_tax_summary false 128000000 0 1).effective_tax_rate4 = 562 ∧
    (calculate_tax_summary false 0 0 1).effective_tax_rate4 = 0 := by
  constructor
  · have h := (C4_effective_rate false 128000000 0 1).2 (by decide)
    rw [h]
    decide
  · exact (C4_effective_rate false 0 0 1).1 (by decide)

/-! ### Data model read by the summary services (`bookkeeping/models.py`) -/

inductive TransactionKind
  | income
  | expense
deriving DecidableEq, Repr

inductive ExpenseKind
  | operating
  | inventory
deriving DecidableEq, Repr

/-- A row of `bookkeeping.models.Transaction`, restricted to the fields
the summary services read.  `total_amount` is a kobo integer;
`expense_type` is nullable (legacy untyped expenses); `business` is the
nullable foreign key. -/
structure Transaction where
  user : ℕ
  business : Option ℕ
  transaction_type : TransactionKind
  expense_type : Option ExpenseKind
  date : ℤ
  total_amount : ℤ
  is_deleted : Bool
deriving DecidableEq, Repr

/-- A row of `bookkeeping.models.InventoryPeriod`. -/
structure InventoryPeriod where
  business : ℕ
  period_end : ℤ
  closing_value : ℤ
deriving DecidableEq, Repr

/-- A row of `bookkeeping.models.Business` (only the fields the engine
reads). -/
structure Business where
  id : ℕ
  user : ℕ
deriving DecidableEq, Repr

/-- The persistent tables the summary services read.  Dates are modelled
as integers (day numbers); `timedelta(days=1)` is the integer 1. -/
structure Database where
  transactions : List Transaction
  inventory_periods : List InventoryPeriod
  businesses : List Business
deriving DecidableEq, Repr

/-- The `if business_id: queryset.filter(business_id=business_id)` step:
with no filter every row passes, otherwise the row's business must
match. -/
def matchesBusiness (bid : Option ℕ) (t : Transaction) : Bool :=
  match bid with
  | none => true
  | some b => decide (t.business = some b)

/-- Base queryset of `daily_summary`: user, exact date, not soft-deleted,
optional business filter. -/
def dailyQueryset (db : Database) (user : ℕ) (target_date : ℤ)
    (bid : Option ℕ) : List Transaction :=
  db.transactions.filter fun t =>
    decide (t.user = user) && decide (t.date = target_date) && !t.is_deleted &&
      matchesBusiness bid t

/-- Base queryset of `date_range_summary` and `profit_and_loss`: user,
inclusive date range, not soft-deleted, optional business filter. -/
def rangeQueryset (db : Database) (user : ℕ) (start_date end_date : ℤ)
    (bid : Option ℕ) : List Transaction :=
  db.transactions.filter fun t =>
    decide (t.user = user) && decide (start_date ≤ t.date) &&
      decide (t.date ≤ end_date) && !t.is_deleted && matchesBusiness bid t

/-- `aggregate(total=Sum('total_amount'))['total'] or 0`: the sum of the
amounts; a `List.sum` over the empty list is already `0`, which is
exactly the `or 0` / `or Decimal('0.00')` coalescing of the source. -/
def sumAmounts (l : List Transaction) : ℤ :=
  (l.map Transaction.total_amount).sum

/-- `queryset.filter(transaction_type='income')` aggregate. -/
def incomeOf (l : List Transaction) : ℤ :=
  sumAmounts (l.filter fun t => decide (t.transaction_type = TransactionKind.income))

/-- `queryset.filter(transaction_type='expense')` aggregate. -/
def expenseOf (l : List Transaction) : ℤ :=
  sumAmounts (l.filter fun t => decide (t.transaction_type = TransactionKind.expense))

/-- Result record of `daily_summary`. -/
structure DailySummary where
  date : ℤ
  currency : String
  total_income : ℤ
  total_expense : ℤ
  net_cash : ℤ
deriving DecidableEq, Repr

/-- `daily_summary` (summaries.py lines 17–61). -/
def daily_summary (db : Database) (user : ℕ) (target_date : ℤ)
    (business_id : Option ℕ) : DailySummary :=
  let queryset := dailyQueryset db user target_date business_id
  let income := incomeOf queryset
  let expense := expenseOf queryset
  { date := target_date
    currency := "NGN"
    total_income := income
    total_expense := expense
    net_cash := income - expense }

/-- Result record of `date_range_summary`. -/
structure RangeSummary where
  start_date : ℤ
  end_date : ℤ
  currency : String
  total_income : ℤ
  total_expense : ℤ
  net_profit : ℤ
deriving DecidableEq, Repr

/-- `date_range_summary` (summaries.py lines 64–112). -/
def date_range_summary (db : Database) (user : ℕ) (start_date end_date : ℤ)
    (business_id : Option ℕ) : RangeSummary :=
  let queryset := rangeQueryset db user start_date end_date business_id
  let income := incomeOf queryset
  let expense := expenseOf queryset
  { start_date := start_date
    end_date := end_date
    currency := "NGN"
    total_income := income
    total_expense := expense
    net_profit := income - expense }

/-- Result record of `profit_and_loss`. -/
structure ProfitLoss where
  start_date : ℤ
  end_date : ℤ
  currency : String
  total_sales : ℤ
  opening_stock : ℤ
  inventory_purchases : ℤ
  closing_stock : ℤ
  cogs : ℤ
  operating_expenses : ℤ
  gross_profit : ℤ
  net_profit : ℤ
deriving DecidableEq, Repr

/-- `InventoryPeriod.objects.filter(business_id=b, period_end=d).first()`:
first record with an exact period-end match. -/
def closingInventory (db : Database) (b : ℕ) (d : ℤ) : Option InventoryPeriod :=
  db.inventory_periods.find? fun ip =>
    decide (ip.business = b) && decide (ip.period_end = d)

/-- `order_by('-period_end').first()` on a list: the element with the
greatest `period_end`, the earliest such element winning ties (Django's
sort is stable). -/
def pickLatest : List InventoryPeriod → Option InventoryPeriod
  | [] => none
  | ip :: rest =>
    match pickLatest rest with
    | none => some ip
    | some best => if best.period_end ≤ ip.period_end then some ip else some best

/-- `InventoryPeriod.objects.filter(business_id=b, period_end__lte=d)
.order_by('-period_end').first()`. -/
def latestInventoryAtOrBefore (db : Database) (b : ℕ) (d : ℤ) :
    Option InventoryPeriod :=
  pickLatest (db.inventory_periods.filter fun ip =>
    decide (ip.business = b) && decide (ip.period_end ≤ d))

/-- `profit_and_loss` (summaries.py lines 115–249).  The business
resolution block (lines 178–187) reads the name `Business`, which is
never imported in `summaries.py`; the lookup raises `NameError` on every
call, the bare `except Exception` catches it and leaves `business_id =
None`.  The optional argument alone therefore decides the mode, which is
why `resolved_business` below is just `business_id`. -/
def profit_and_loss (db : Database) (user : ℕ) (start_date end_date : ℤ)
    (business_id : Option ℕ) : ProfitLoss :=
  let queryset := rangeQueryset db user start_date end_date business_id
  let sales := incomeOf queryset
  let inventory_purchases := sumAmounts (queryset.filter fun t =>
    decide (t.transaction_type = TransactionKind.expense) &&
      decide (t.expense_type = some ExpenseKind.inventory))
  let operating_expenses := sumAmounts (queryset.filter fun t =>
    decide (t.transaction_type = TransactionKind.expense) &&
      decide (t.expense_type = some ExpenseKind.operating))
  let legacy_expenses := sumAmounts (queryset.filter fun t =>
    decide (t.transaction_type = TransactionKind.expense) &&
      decide (t.expense_type = none))
  let total_operating_expenses := operating_expenses + legacy_expenses
  let resolved_business : Option ℕ := business_id
  match resolved_business with
  | none =>
    let total_expense := expenseOf queryset
    { start_date := start_date
      end_date := end_date
      currency := "NGN"
      total_sales := sales
      opening_stock := 0
      inventory_purchases := 0
      closing_stock := 0
      cogs := 0
      operating_expenses := total_expense
      gross_profit := sales - 0
      net_profit := sales - 0 - total_expense }
  | some b =>
    let closing_stock_value :=
      match closingInventory db b end_date with
      | some ip => ip.closing_value
      | none => 0
    let opening_stock_value :=
      match latestInventoryAtOrBefore db b (start_date - 1) with
      | some ip => ip.closing_value
      | none => 0
    let goods_available := opening_stock_value + inventory_purchases
    let cogs := max (goods_available - closing_stock_value) 0
    { start_date := start_date
      end_date := end_date
      currency := "NGN"
      total_sales := sales
      opening_stock := opening_stock_value
      inventory_purchases := inventory_purchases
      closing_stock := closing_stock_value
      cogs := cogs
      operating_expenses := total_operating_expenses
      gross_profit := sales - cogs
      net_profit := sales - cogs - total_operating_expenses }

/-- `SummaryViewSet.profit_loss` (apis.py lines 982–1026): the validation
layer in front of the service.  A date parameter arrives as an `Option`:
`none` models a missing or unparseable date string, both rejected with an
HTTP 400 before any aggregation.  The `business_id` query parameter is
handed to `profit_and_loss` without any existence check. -/
def profit_loss_endpoint (db : Database) (user : ℕ)
    (start_date end_date : Option ℤ) (business_id : Option ℕ) :
    Except String ProfitLoss :=
  match start_date, end_date with
  | none, _ => .error "start_date and end_date parameters are required"
  | _, none => .error "start_date and end_date parameters are required"
  | some s, some e =>
    if e < s then .error "start_date must be before or equal to end_date"
    else .ok (profit_and_loss db user s e business_id)

theorem pickLatest_ne_none {l : List InventoryPeriod} (hl : l ≠ []) :
    pickLatest l ≠ none := by
  cases l with
  | nil => exact absurd rfl hl
  | cons a rest =>
    cases h : pickLatest rest with
    | none => simp [pickLatest, h]
    | some best =>
      simp only [pickLatest, h]
      split_ifs <;> simp

theorem pickLatest_mem {l : List InventoryPeriod} :
    ∀ {ip : InventoryPeriod}, pickLatest l = some ip → ip ∈ l := by
  induction l with
  | nil => intro ip h; simp [pickLatest] at h
  | cons a rest ih =>
    intro ip h
    cases hres : pickLatest rest with
    | none =>
      simp only [pickLatest, hres, Option.some.injEq] at h
      exact h ▸ List.mem_cons_self a rest
    | some best =>
      simp only [pickLatest, hres] at h
      by_cases hle : best.period_end ≤ a.period_end
      · rw [if_pos hle, Option.some.injEq] at h
        exact h ▸ List.mem_cons_self a rest
      · rw [if_neg hle, Option.some.injEq] at h
        exact List.mem_cons_of_mem a (ih (h ▸ hres))

theorem pickLatest_ge {l : List InventoryPeriod} :
    ∀ {ip : InventoryPeriod}, pickLatest l = some ip →
      ∀ x ∈ l, x.period_end ≤ ip.period_end := by
  induction l with
  | nil => intro ip h; simp [pickLatest] at h
  | cons a rest ih =>
    intro ip h x hx
    cases hres : pickLatest rest with
    | none =>
      simp only [pickLatest, hres, Option.some.injEq] at h
      have hrest : rest = [] := by
        by_contra hne
        exact pickLatest_ne_none hne hres
      subst hrest
      have hxa : x = a := by simpa using hx
      rw [hxa, h]
    | some best =>
      simp only [pickLatest, hres] at h
      rcases List.mem_cons.mp hx with rfl | hxr
      · by_cases hle : best.period_end ≤ x.period_end
        · rw [if_pos hle, Option.some.injEq] at h
          rw [h]
        · rw [if_neg hle, Option.some.injEq] at h
          exact h ▸ (le_of_not_le hle)
      · by_cases hle : best.period_end ≤ a.period_end
        · rw [if_pos hle, Option.some.injEq] at h
          calc x.period_end ≤ best.period_end := ih hres x hxr
            _ ≤ a.period_end := hle
            _ = ip.period_end := by rw [h]
        · rw [if_neg hle, Option.some.injEq] at h
          exact h ▸ ih hres x hxr

/-! ### Spec-side inventory valuation resolver (spec section 4.3) -/

/-- Spec-side `closing_value_at(business, date)`: exact-match lookup
returning the recorded closing value for that business/date pair, or
zero if no record exists for that exact date.  Written over the filtered
table, whereas the code uses `.first()` on the queryset. -/
def closing_value_at (db : Database) (b : ℕ) (d : ℤ) : ℤ :=
  match db.inventory_periods.filter (fun ip =>
    decide (ip.business = b) && decide (ip.period_end = d)) with
  | [] => 0
  | ip :: _ => ip.closing_value

theorem find?_value_eq_filter_head (l : List InventoryPeriod)
    (p : InventoryPeriod → Bool) :
    (match l.find? p with
     | some ip => ip.closing_value
     | none => (0 : ℤ)) =
    (match l.filter p with
     | [] => (0 : ℤ)
     | ip :: _ => ip.closing_value) := by
  induction l with
  | nil => rfl
  | cons a rest ih =>
    by_cases h : p a
    · rw [List.find?_cons_of_pos _ h, List.filter_cons_of_pos h]
    · rw [List.find?_cons_of_neg _ (by simp [h]), List.filter_cons_of_neg (by simp [h])]
      exact ih

/-- The inventory-purchase aggregate of the profit-and-loss queryset:
non-deleted expense transactions of subtype `inventory` matching the
owner, range and business filters. -/
def inventoryPurchasesOf (db : Database) (user : ℕ) (s e : ℤ)
    (bid : Option ℕ) : ℤ :=
  sumAmounts ((rangeQueryset db user s e bid).filter fun t =>
    decide (t.transaction_type = TransactionKind.expense) &&
      decide (t.expense_type = some ExpenseKind.inventory))

/-! ### Claim theorems for the summary calculators -/

/-- C2: in business mode (an explicit business id), `profit_and_loss`
computes `cogs = max (opening + purchases - closing) 0`, where `closing`
is the exact-match closing value at `end`, `opening` is the closing value
of the most recent inventory period with `period_end ≤ start - 1` (zero
if none; the chosen record is a maximal-period-end member of that set),
and `purchases` sums the matching non-deleted inventory-subtype expense
transactions; consequently `cogs` is never negative. -/
theorem C2_business_mode_cogs (db : Database) (user : ℕ) (s e : ℤ) (b : ℕ) :
    (profit_and_loss db user s e (some b)).cogs =
      max ((profit_and_loss db user s e (some b)).opening_stock +
        (profit_and_loss db user s e (some b)).inventory_purchases -
        (profit_and_loss db user s e (some b)).closing_stock) 0 ∧
    0 ≤ (profit_and_loss db user s e (some b)).cogs ∧
    (profit_and_loss db user s e (some b)).closing_stock = closing_value_at db b e ∧
    (profit_and_loss db user s e (some b)).inventory_purchases =
      inventoryPurchasesOf db user s e (some b) ∧
    ((db.inventory_periods.filter fun ip =>
        decide (ip.business = b) && decide (ip.period_end ≤ s - 1)) = [] →
      (profit_and_loss db user s e (some b)).opening_stock = 0) ∧
    (∀ ip, pickLatest (db.inventory_periods.filter fun ip2 =>
        decide (ip2.business = b) && decide (ip2.period_end ≤ s - 1)) = some ip →
      ip ∈ db.inventory_periods ∧ ip.business = b ∧ ip.period_end ≤ s - 1 ∧
      (profit_and_loss db user s e (some b)).opening_stock = ip.closing_value ∧
      ∀ ip2 ∈ db.inventory_periods, ip2.business = b → ip2.period_end ≤ s - 1 →
        ip2.period_end ≤ ip.period_end) := by
  refine ⟨rfl, ?_, ?_, rfl, ?_, ?_⟩
  · simp only [profit_and_loss]
    exact le_max_right _ _
  · simp only [profit_and_loss, closingInventory, closing_value_at]
    exact find?_value_eq_filter_head _ _
  · intro hnil
    simp only [profit_and_loss, latestInventoryAtOrBefore, hnil, pickLatest]
  · intro ip hip
    have hmem := pickLatest_mem hip
    have hmem2 := List.mem_filter.mp hmem
    have hprops : ip.business = b ∧ ip.period_end ≤ s - 1 := by
      have := hmem2.2
      simp only [Bool.and_eq_true, decide_eq_true_eq] at this
      exact this
    refine ⟨hmem2.1, hprops.1, hprops.2, ?_, ?_⟩
    · simp only [profit_and_loss, latestInventoryAtOrBefore, hip]
    · intro ip2 h2mem h2b h2d
      exact pickLatest_ge hip ip2
        (List.mem_filter.mpr ⟨h2mem, by simp [h2b, h2d]⟩)

/-- C6: with no business id supplied (which, per the resolution defect
recorded at `profit_and_loss`, is exactly when individual mode runs),
COGS and all stock figures are zero, every expense regardless of subtype
is counted as an operating expense, `gross_profit` equals total sales and
`net_profit` equals sales minus total expenses, exactly and without
clamping. -/
theorem C6_individual_mode (db : Database) (user : ℕ) (s e : ℤ) :
    (profit_and_loss db user s e none).cogs = 0 ∧
    (profit_and_loss db user s e none).opening_stock = 0 ∧
    (profit_and_loss db user s e none).closing_stock = 0 ∧
    (profit_and_loss db user s e none).inventory_purchases = 0 ∧
    (profit_and_loss db user s e none).operating_expenses =
      expenseOf (rangeQueryset db user s e none) ∧
    (profit_and_loss db user s e none).total_sales =
      incomeOf (rangeQueryset db user s e none) ∧
    (profit_and_loss db user s e none).gross_profit =
      (profit_and_loss db user s e none).total_sales ∧
    (profit_and_loss db user s e none).net_profit =
      incomeOf (rangeQueryset db user s e none) -
        expenseOf (rangeQueryset db user s e none) := by
  refine ⟨rfl, rfl, rfl, rfl, rfl, rfl, ?_, ?_⟩
  · simp only [profit_and_loss]
    ring
  · simp only [profit_and_loss]
    ring

/-- Concrete database for the business-resolution defect: owner 7 owns
business 1 and has one inventory-subtype expense of 500 kobo inside the
queried range. -/
def dbC3 : Database :=
  ⟨[⟨7, some 1, TransactionKind.expense, some ExpenseKind.inventory, 5, 500, false⟩],
   [], [⟨1, 7⟩]⟩

/-- C3 (code defect): in `dbC3` owner 7 does own a business, yet
`profit_and_loss` called without a business id runs in individual mode —
`summaries.py` never imports `Business`, so the lookup of "some business
for the owner" raises `NameError`, the bare `except Exception` swallows
it and `business_id` stays `None`.  Individual mode then zeroes COGS and
`inventory_purchases` and reports the inventory expense as operating,
where the claim (and the source's own comments) require business mode. -/
theorem C3_failing_input :
    (dbC3.businesses.filter fun b => decide (b.user = 7)) ≠ [] ∧
    (profit_and_loss dbC3 7 0 10 none).cogs = 0 ∧
    (profit_and_loss dbC3 7 0 10 none).operating_expenses = 500 ∧
    (profit_and_loss dbC3 7 0 10 none).inventory_purchases = 0 :=
  ⟨by decide, by decide, by decide, by decide⟩

/-- Concrete database exercising business-mode COGS: one inventory
expense of 300 kobo, an inventory snapshot of 200 at day -2 and one of
100 at day 10, all under business 1 owned by user 7. -/
def dbC2 : Database :=
  ⟨[⟨7, some 1, TransactionKind.expense, some ExpenseKind.inventory, 5, 300, false⟩],
   [⟨1, -2, 200⟩, ⟨1, 10, 100⟩], [⟨1, 7⟩]⟩

theorem C2_business_mode_cogs_witness :
    (profit_and_loss dbC2 7 0 10 (some 1)).closing_stock = closing_value_at dbC2 1 10 ∧
    (profit_and_loss dbC2 7 0 10 (some 1)).opening_stock = 200 ∧
    (profit_and_loss dbC2 7 0 10 (some 1)).cogs = 400 := by
  have h := C2_business_mode_cogs dbC2 7 0 10 1
  have h6 := h.2.2.2.2.2 ⟨1, -2, 200⟩ (by decide)
  refine ⟨h.2.2.1, ?_, by decide⟩
  simpa using h6.2.2.2.1

/-- Empty-ledger database that still carries an inventory snapshot:
no transactions at all, one inventory period (100 kobo at day -1) for
business 1. -/
def dbC8 : Database := ⟨[], [⟨1, -1, 100⟩], [⟨1, 7⟩]⟩

/-- C8 counterexample: over `dbC8` the queried range matches no
transaction at all, yet business-mode `profit_and_loss` reports
`opening_stock = 100`, `cogs = 100` and `net_profit = -100`: with an
inventory snapshot on file, an empty ledger slice does not make every
monetary field zero. -/
theorem C8_counterexample :
    rangeQueryset dbC8 7 0 10 (some 1) = [] ∧
    (profit_and_loss dbC8 7 0 10 (some 1)).opening_stock = 100 ∧
    (profit_and_loss dbC8 7 0 10 (some 1)).cogs = 100 ∧
    (profit_and_loss dbC8 7 0 10 (some 1)).gross_profit = -100 ∧
    (profit_and_loss dbC8 7 0 10 (some 1)).net_profit = -100 :=
  ⟨by decide, by decide, by decide, by decide, by decide⟩

/-- C8 amended: over an empty ledger slice every summary function still
returns a complete record without error; every monetary field of
`daily_summary` and `date_range_summary` is zero, and every monetary
field of `profit_and_loss` is zero provided additionally that no
inventory period belongs to the queried business (in particular whenever
there are no inventory records at all). -/
theorem C8_empty_slice (db : Database) (user : ℕ) (d s e : ℤ) (bid : Option ℕ)
    (hd : dailyQueryset db user d bid = [])
    (hr : rangeQueryset db user s e bid = [])
    (hip : ∀ ip ∈ db.inventory_periods, some ip.business ≠ bid) :
    (daily_summary db user d bid).total_income = 0 ∧
    (daily_summary db user d bid).total_expense = 0 ∧
    (daily_summary db user d bid).net_cash = 0 ∧
    (date_range_summary db user s e bid).total_income = 0 ∧
    (date_range_summary db user s e bid).total_expense = 0 ∧
    (date_range_summary db user s e bid).net_profit = 0 ∧
    (profit_and_loss db user s e bid).total_sales = 0 ∧
    (profit_and_loss db user s e bid).opening_stock = 0 ∧
    (profit_and_loss db user s e bid).inventory_purchases = 0 ∧
    (profit_and_loss db user s e bid).closing_stock = 0 ∧
    (profit_and_loss db user s e bid).cogs = 0 ∧
    (profit_and_loss db user s e bid).operating_expenses = 0 ∧
    (profit_and_loss db user s e bid).gross_profit = 0 ∧
    (profit_and_loss db user s e bid).net_profit = 0 := by
  have hdaily : daily_summary db user d bid = ⟨d, "NGN", 0, 0, 0⟩ := by
    simp [daily_summary, hd, incomeOf, expenseOf, sumAmounts]
  have hrange : date_range_summary db user s e bid = ⟨s, e, "NGN", 0, 0, 0⟩ := by
    simp [date_range_summary, hr, incomeOf, expenseOf, sumAmounts]
  have hpl : profit_and_loss db user s e bid = ⟨s, e, "NGN", 0, 0, 0, 0, 0, 0, 0, 0⟩ := by
    cases bid with
    | none =>
      simp [profit_and_loss, hr, incomeOf, expenseOf, sumAmounts]
    | some b =>
      have hclos : closingInventory db b e = none := by
        rw [closingInventory, List.find?_eq_none]
        intro ip hmem
        have hb := hip ip hmem
        simp only [ne_eq, Option.some.injEq] at hb
        simp [hb]
      have hfilt : (db.inventory_periods.filter fun ip =>
          decide (ip.business = b) && decide (ip.period_end ≤ s - 1)) = [] := by
        rw [List.filter_eq_nil_iff]
        intro ip hmem
        have hb := hip ip hmem
        simp only [ne_eq, Option.some.injEq] at hb
        simp [hb]
      simp [profit_and_loss, hr, incomeOf, expenseOf, sumAmounts, hclos,
        latestInventoryAtOrBefore, hfilt, pickLatest]
  rw [hdaily, hrange, hpl]
  exact ⟨rfl, rfl, rfl, rfl, rfl, rfl, rfl, rfl, rfl, rfl, rfl, rfl, rfl, rfl⟩

/-- Database for the C8 witness: empty ledger, one inventory record that
belongs to a different business (2) than the one queried (1). -/
def dbC8w : Database := ⟨[], [⟨2, -1, 50⟩], [⟨2, 9⟩]⟩

theorem C8_empty_slice_witness :
    (daily_summary dbC8w 7 0 (some 1)).total_income = 0 ∧
    (profit_and_loss dbC8w 7 0 10 (some 1)).cogs = 0 := by
  have h := C8_empty_slice dbC8w 7 0 0 10 (some 1) (by decide) (by decide) (by decide)
  exact ⟨h.1, h.2.2.2.2.2.2.2.2.2.2.1⟩

/-- Database for the C5 claim: one income transaction of 900 kobo under
business 1 owned by user 7; business 99 does not exist. -/
def dbC5 : Database :=
  ⟨[⟨7, some 1, TransactionKind.income, none, 5, 900, false⟩], [], [⟨1, 7⟩]⟩

/-- C5 counterexample: a profit-and-loss query naming business 99 — which
exists nowhere in `dbC5` — is not rejected: the endpoint returns an `ok`
result whose monetary fields were silently computed over the empty
matching set, instead of a structured validation error. -/
theorem C5_counterexample :
    (dbC5.businesses.filter fun b => decide (b.id = 99)) = [] ∧
    profit_loss_endpoint dbC5 7 (some 0) (some 10) (some 99) =
      Except.ok (profit_and_loss dbC5 7 0 10 (some 99)) ∧
    (profit_and_loss dbC5 7 0 10 (some 99)).total_sales = 0 ∧
    (profit_and_loss dbC5 7 0 10 (some 99)).net_profit = 0 :=
  ⟨by decide, rfl, by decide, by decide⟩

/-- C5 amended: the endpoint rejects missing/unparseable dates and
`start > end` synchronously, but performs no existence check on the
business reference: a query naming a business that owns no transaction
and no inventory period completes normally with every monetary field
equal to zero. -/
theorem C5_nonexistent_business (db : Database) (user : ℕ) (s e : ℤ) (b : ℕ)
    (hord : ¬e < s)
    (ht : ∀ t ∈ db.transactions, t.business ≠ some b)
    (hip : ∀ ip ∈ db.inventory_periods, ip.business ≠ b) :
    profit_loss_endpoint db user (some s) (some e) (some b) =
      Except.ok (profit_and_loss db user s e (some b)) ∧
    (profit_and_loss db user s e (some b)).total_sales = 0 ∧
    (profit_and_loss db user s e (some b)).inventory_purchases = 0 ∧
    (profit_and_loss db user s e (some b)).opening_stock = 0 ∧
    (profit_and_loss db user s e (some b)).closing_stock = 0 ∧
    (profit_and_loss db user s e (some b)).cogs = 0 ∧
    (profit_and_loss db user s e (some b)).operating_expenses = 0 ∧
    (profit_and_loss db user s e (some b)).gross_profit = 0 ∧
    (profit_and_loss db user s e (some b)).net_profit = 0 := by
  have hqs : rangeQueryset db user s e (some b) = [] := by
    rw [rangeQueryset, List.filter_eq_nil_iff]
    intro t hmem
    have hb := ht t hmem
    simp [matchesBusiness, hb]
  have hclos : closingInventory db b e = none := by
    rw [closingInventory, List.find?_eq_none]
    intro ip hmem
    simp [hip ip hmem]
  have hfilt : (db.inventory_periods.filter fun ip =>
      decide (ip.business = b) && decide (ip.period_end ≤ s - 1)) = [] := by
    rw [List.filter_eq_nil_iff]
    intro ip hmem
    simp [hip ip hmem]
  have hpl : profit_and_loss db user s e (some b) = ⟨s, e, "NGN", 0, 0, 0, 0, 0, 0, 0, 0⟩ := by
    simp [profit_and_loss, hqs, incomeOf, expenseOf, sumAmounts, hclos,
      latestInventoryAtOrBefore, hfilt, pickLatest]
  refine ⟨by simp [profit_loss_endpoint, hord], ?_⟩
  rw [hpl]
  exact ⟨rfl, rfl, rfl, rfl, rfl, rfl, rfl, rfl⟩

theorem C5_nonexistent_business_witness :
    profit_loss_endpoint dbC5 7 (some 0) (some 10) (some 42) =
      Except.ok (profit_and_loss dbC5 7 0 10 (some 42)) ∧
    (profit_and_loss dbC5 7 0 10 (some 42)).net_profit = 0 := by
  have h := C5_nonexistent_business dbC5 7 0 10 42 (by decide) (by decide) (by decide)
  exact ⟨h.1, h.2.2.2.2.2.2.2.2⟩
